import Mathlib

/-!
Verification of the Toornament-Standings repository (a Discord bot that
renders tournament standings fetched from the Toornament API).

The development shallowly embeds the core of `toornament.py` (the paginated,
rate-limited, credential-refreshing API client) and `embed_generator.py`
(the ranking / fixture text-rendering pipeline) as executable Lean
definitions, and proves the behavioural properties stated about them.

Modelling conventions:
- timestamps are integers (milliseconds for the rate limiter, whose spacing
  constant is 333 ms; seconds for token-expiry arithmetic);
- HTTP traffic is an oracle: a paginated fetch consumes a list of
  `(arrivalTime, Response)` pairs, one per loop iteration;
- Python exceptions are modelled by `Except PyError` / `Option`;
- Python strings are manipulated through their character lists so that all
  definitions are structurally recursive and kernel-computable.
-/

namespace ToornamentStandings

/-- Errors a Python-level operation can raise in the modelled fragment.
`noResponse` is an artefact of the response-oracle model only: it marks the
oracle running out of responses, which has no counterpart in the code. -/
inductive PyError where
  | keyError : PyError
  | httpError : Nat → PyError
  | valueError : PyError
  | noResponse : PyError
deriving DecidableEq, Repr

/-- An HTTP response as seen by `__request_get_pages`: success flag and
status code, the JSON body (a list of items), and the optional
`Content-Range` header ( `none` models an absent header). -/
structure Response (α : Type) where
  ok : Bool
  status : Nat
  items : List α
  contentRange : Option String
deriving DecidableEq, Repr

/-- Drops `pre` from the front of `l` when `pre` is a prefix, else `none`. -/
def dropPrefixChars : List Char → List Char → Option (List Char)
  | [], l => some l
  | _ :: _, [] => none
  | p :: ps, c :: cs => if p = c then dropPrefixChars ps cs else none

/-- Decimal value of a list of digit characters (most significant first). -/
def digitsVal (l : List Char) : Nat :=
  l.foldl (fun a c => 10 * a + (c.toNat - 48)) 0

/-- Reads a non-empty run of decimal digits from the front of `l`, returning
its value and the rest of the input. -/
def readNat : List Char → Option (Nat × List Char)
  | l =>
    let ds := l.takeWhile Char.isDigit
    if ds.isEmpty then none else some (digitsVal ds, l.dropWhile Char.isDigit)

/-- Model of `parse.parse(f"{unit} {{:d}}-{{:d}}/{{:d}}", s)` used by
`__request_get_pages` on the `Content-Range` header: the whole string must
be `unit`, a space, and three non-negative decimal integers shaped
`a-b/n`.  (The `parse` library also accepts signed integers; the API never
sends them and no claim depends on them.) -/
def parseContentRange (unit : String) (s : String) : Option (Nat × Nat × Nat) :=
  match dropPrefixChars (unit.data ++ [' ']) s.data with
  | none => none
  | some r0 =>
    match readNat r0 with
    | none => none
    | some (a, r1) =>
      match r1 with
      | '-' :: r2 =>
        match readNat r2 with
        | none => none
        | some (b, r3) =>
          match r3 with
          | '/' :: r4 =>
            match readNat r4 with
            | none => none
            | some (n, r5) => if r5.isEmpty then some (a, b, n) else none
          | _ => none
      | _ => none

/-- Model of `__respect_rate_limits`: given the stored cooldown timestamp
and the current time, the call returns (the time at which the request is
actually sent, the new cooldown).  `pause.until` makes the send time
`max now cooldown`, and the cooldown is advanced to 333 ms
(`__time_per_request`) after the send. -/
def respectRateLimits (cooldown now : Int) : Int × Int :=
  (max now cooldown, max now cooldown + 333)

/-- Model of the loop of `__request_get_pages`.  Arguments mirror the local
state of the Python loop: the cooldown of the rate limiter, `page_start`,
`total_page_num`, the `Range` windows issued so far, and `page_list`.
Each iteration consumes one `(arrivalTime, response)` pair from the oracle.
Returns the send times of all issued requests together with either the
collected items (and issued ranges) or the raised exception. -/
def requestGetPagesAux (unit : String) (itemsPerRequest : Nat) :
    List (Int × Response α) → Int → Nat → Nat → List (Nat × Nat) → List α →
    List Int × Except PyError (List (Nat × Nat) × List α)
  | [], _, pageStart, total, ranges, acc =>
    if pageStart < total then ([], .error .noResponse) else ([], .ok (ranges, acc))
  | (t, r) :: rest, cooldown, pageStart, total, ranges, acc =>
    if pageStart < total then
      let pageEnd := pageStart + itemsPerRequest - 1
      let ranges1 := ranges ++ [(pageStart, pageEnd)]
      let gate := respectRateLimits cooldown t
      if r.ok then
        let acc1 := acc ++ r.items
        match r.contentRange with
        | none => ([gate.1], .error .keyError)
        | some cr =>
          match parseContentRange unit cr with
          | none => ([gate.1], .ok (ranges1, acc1))
          | some (_, b, n) =>
            let rec1 := requestGetPagesAux unit itemsPerRequest rest gate.2 (b + 1) n ranges1 acc1
            (gate.1 :: rec1.1, rec1.2)
      else ([gate.1], .error (.httpError r.status))
    else ([], .ok (ranges, acc))

/-- Model of `__request_get_pages`: the loop starts with `page_start = 0`
and `total_page_num = 1`, empty `page_list`, and a given rate-limiter
cooldown. -/
def requestGetPages (unit : String) (itemsPerRequest : Nat) (cooldown : Int)
    (resps : List (Int × Response α)) :
    List Int × Except PyError (List (Nat × Nat) × List α) :=
  requestGetPagesAux unit itemsPerRequest resps cooldown 0 1 [] []

/-- Paginated fetch behind `get_ranking` (default unit `items`, 50 per
request). -/
def getRanking (cooldown : Int) (resps : List (Int × Response α)) :=
  requestGetPages "items" 50 cooldown resps

/-- Paginated fetch behind `get_matches` (unit `matches`). -/
def getMatches (cooldown : Int) (resps : List (Int × Response α)) :=
  requestGetPages "matches" 50 cooldown resps

/-- Paginated fetch behind `get_groups` (unit `groups`). -/
def getGroups (cooldown : Int) (resps : List (Int × Response α)) :=
  requestGetPages "groups" 50 cooldown resps

/-- A well-formed paginated exchange starting at window offset `s`:
every response is successful and carries a `Content-Range` header
`unit a-b/n`; an intermediate response has `b + 1 < n` and the next
window starts at `b + 1`; the final response has `b + 1 = n`
(i.e. `b = n - 1`).  The last two indices record the `Range` windows the
client is expected to issue and the concatenation of all items. -/
inductive PagedRun (unit : String) (ipr : Nat) :
    Nat → List (Int × Response α) → List (Nat × Nat) → List α → Prop
  | stop (s : Nat) (t : Int) (r : Response α) (cr : String) (a b n : Nat)
      (hok : r.ok = true) (hcr : r.contentRange = some cr)
      (hparse : parseContentRange unit cr = some (a, b, n))
      (hlast : b + 1 = n) :
      PagedRun unit ipr s [(t, r)] [(s, s + ipr - 1)] r.items
  | step (s : Nat) (t : Int) (r : Response α) (cr : String) (a b n : Nat)
      (rest : List (Int × Response α)) (ranges : List (Nat × Nat)) (items : List α)
      (hok : r.ok = true) (hcr : r.contentRange = some cr)
      (hparse : parseContentRange unit cr = some (a, b, n))
      (hmore : b + 1 < n)
      (htail : PagedRun unit ipr (b + 1) rest ranges items) :
      PagedRun unit ipr s ((t, r) :: rest) ((s, s + ipr - 1) :: ranges) (r.items ++ items)

/-! ### Credentials and token refresh (`toornament.py`) -/

/-- In-memory credential record `ToornamentAPI.__credentials`, with the
expiry held as an integer timestamp in seconds (the instant model used for
all expiry arithmetic). -/
structure Credentials where
  clientId : String
  clientSecret : String
  token : String
  authKey : String
  authType : String
  authScope : String
  authExpiry : Int
deriving DecidableEq, Repr

/-- JSON body returned by the OAuth2 token endpoint. -/
structure TokenResponse where
  accessToken : String
  tokenType : String
  scope : String
  expiresIn : Int
deriving DecidableEq, Repr

/-- Model of `__has_api_token_expired`: the token counts as expired when
`datetime.now() + timedelta(minutes=1) > auth_expiry`. -/
def hasApiTokenExpired (now : Int) (c : Credentials) : Bool :=
  now + 60 > c.authExpiry

/-- Model of `__update_api_credentials`: replaces key, type and scope from
the token response and sets the expiry to
`now + timedelta(seconds=expires_in - 10)`. -/
def updateApiCredentials (now : Int) (c : Credentials) (resp : TokenResponse) : Credentials :=
  { c with
    authKey := resp.accessToken
    authType := resp.tokenType
    authScope := resp.scope
    authExpiry := now + resp.expiresIn - 10 }

/-- Observable actions of the client, in program order. -/
inductive ApiEvent where
  | postTokenRequest
  | persistCredentials (c : Credentials)
  | sendRequest
deriving DecidableEq, Repr

/-- Model of `__check_auth_token`: when the token is (about to be) expired,
one client-credentials POST is made, the credentials are updated and
written back to the credential file; otherwise nothing happens. -/
def checkAuthToken (now : Int) (c : Credentials) (tokenResp : TokenResponse) :
    Credentials × List ApiEvent :=
  if hasApiTokenExpired now c then
    let c1 := updateApiCredentials now c tokenResp
    (c1, [.postTokenRequest, .persistCredentials c1])
  else (c, [])

/-- Model of `__request_get` / `__request_post` with `authorization=True`:
`__check_auth_token` runs first, and only then is the original request
sent. -/
def requestAuthorized (now : Int) (c : Credentials) (tokenResp : TokenResponse) :
    Credentials × List ApiEvent :=
  let r := checkAuthToken now c tokenResp
  (r.1, r.2 ++ [.sendRequest])

/-! ### Expiry timestamp serialisation (`"%d.%m.%Y, %H:%M:%S"`) -/

/-- Calendar timestamp as serialised by the credential file. -/
structure DateTime where
  day : Nat
  month : Nat
  year : Nat
  hour : Nat
  minute : Nat
  second : Nat
deriving DecidableEq, Repr

/-- Field ranges of a real `datetime` value with a four-digit year. -/
def DateTime.Valid (dt : DateTime) : Prop :=
  1 ≤ dt.day ∧ dt.day ≤ 31 ∧ 1 ≤ dt.month ∧ dt.month ≤ 12 ∧
  1000 ≤ dt.year ∧ dt.year ≤ 9999 ∧ dt.hour ≤ 23 ∧ dt.minute ≤ 59 ∧ dt.second ≤ 59

instance (dt : DateTime) : Decidable dt.Valid :=
  inferInstanceAs (Decidable (1 ≤ dt.day ∧ dt.day ≤ 31 ∧ 1 ≤ dt.month ∧ dt.month ≤ 12 ∧
    1000 ≤ dt.year ∧ dt.year ≤ 9999 ∧ dt.hour ≤ 23 ∧ dt.minute ≤ 59 ∧ dt.second ≤ 59))

/-- Two-digit zero-padded decimal rendering, as strftime prints `%d`, `%m`,
`%H`, `%M`, `%S`. -/
def pad2Chars (n : Nat) : List Char :=
  [Nat.digitChar (n / 10 % 10), Nat.digitChar (n % 10)]

/-- Four-digit decimal rendering, as strftime prints `%Y` for years
1000-9999. -/
def pad4Chars (n : Nat) : List Char :=
  [Nat.digitChar (n / 1000 % 10), Nat.digitChar (n / 100 % 10),
   Nat.digitChar (n / 10 % 10), Nat.digitChar (n % 10)]

/-- Characters of `auth_expiry.strftime("%d.%m.%Y, %H:%M:%S")` as written
by `__update_api_credentials`. -/
def formatAuthExpiryChars (dt : DateTime) : List Char :=
  pad2Chars dt.day ++ ['.'] ++ pad2Chars dt.month ++ ['.'] ++ pad4Chars dt.year ++
    [',', ' '] ++ pad2Chars dt.hour ++ [':'] ++ pad2Chars dt.minute ++ [':'] ++
    pad2Chars dt.second

/-- String form of the serialised expiry. -/
def formatAuthExpiry (dt : DateTime) : String :=
  String.mk (formatAuthExpiryChars dt)

/-- Numeric value of a decimal digit character. -/
def digitVal (c : Char) : Nat := c.toNat - 48

/-- Model of `datetime.strptime(s, "%d.%m.%Y, %H:%M:%S")` as performed by
`__load_api_credentials`, on the canonical fixed-width strings the
persisting side produces (strptime additionally accepts one-digit fields,
which the writer never emits); out-of-range fields fail as strptime does. -/
def parseAuthExpiryChars : List Char → Option DateTime
  | [d1, d2, '.', m1, m2, '.', y1, y2, y3, y4, ',', ' ',
     h1, h2, ':', n1, n2, ':', s1, s2] =>
    if d1.isDigit && d2.isDigit && m1.isDigit && m2.isDigit &&
       y1.isDigit && y2.isDigit && y3.isDigit && y4.isDigit &&
       h1.isDigit && h2.isDigit && n1.isDigit && n2.isDigit &&
       s1.isDigit && s2.isDigit then
      let day := 10 * digitVal d1 + digitVal d2
      let month := 10 * digitVal m1 + digitVal m2
      let year := 1000 * digitVal y1 + 100 * digitVal y2 + 10 * digitVal y3 + digitVal y4
      let hour := 10 * digitVal h1 + digitVal h2
      let minute := 10 * digitVal n1 + digitVal n2
      let second := 10 * digitVal s1 + digitVal s2
      if 1 ≤ day ∧ day ≤ 31 ∧ 1 ≤ month ∧ month ≤ 12 ∧ 1 ≤ year ∧
         hour ≤ 23 ∧ minute ≤ 59 ∧ second ≤ 61 then
        some ⟨day, month, year, hour, minute, second⟩
      else none
    else none
  | _ => none

/-- String-level wrapper for the expiry parser. -/
def parseAuthExpiry (s : String) : Option DateTime :=
  parseAuthExpiryChars s.data

/-! ### Emote resolution (`embed_generator.py`) -/

/-- A custom guild emote as exposed by the chat platform. -/
structure Emoji where
  name : String
  id : Nat
deriving DecidableEq, Repr

/-- The posting destination: the set of custom emotes available. -/
structure Guild where
  emojis : List Emoji
deriving DecidableEq, Repr

/-- ASCII model of Python `str.lower()`. -/
def lowerString (s : String) : String :=
  String.mk (s.data.map Char.toLower)

/-- The search loop of `__get_emote_id`: first emoji whose lowered name
matches the (already lowered) query, rendered as an emote mention. -/
def findEmoteInList (emoteName : String) : List Emoji → Option String
  | [] => none
  | e :: rest =>
    if lowerString e.name = emoteName then
      some ("<:" ++ e.name ++ ":" ++ toString e.id ++ ">")
    else findEmoteInList emoteName rest

/-- Model of `__get_emote_id`: case-insensitive lookup of an emote name
among the guild's emojis. -/
def getEmoteId (guild : Guild) (emoteName : String) : Option String :=
  findEmoteInList (lowerString emoteName) guild.emojis

/-- The character loop of `__team_name_to_emote_name`: drops `' '`
characters and upper-cases a character that follows one (or starts the
string). -/
def teamNameToEmoteNameChars : Bool → List Char → List Char
  | _, [] => []
  | prevWhitespace, c :: cs =>
    if c = ' ' then teamNameToEmoteNameChars true cs
    else if prevWhitespace then c.toUpper :: teamNameToEmoteNameChars false cs
    else c :: teamNameToEmoteNameChars false cs

/-- Model of `__team_name_to_emote_name`. -/
def teamNameToEmoteName (teamName : String) : String :=
  String.mk (teamNameToEmoteNameChars true teamName.data)

/-! ### Match rendering (`embed_generator.py`) -/

/-- A Python score value: the API sends integers (or null), and the
forfeit pass overwrites them with strings. -/
inductive ScoreVal where
  | int (n : Int)
  | str (s : String)
  | null
deriving DecidableEq, Repr

/-- The per-team dictionary built by `__get_match_info` and consumed by
`__get_match_string` / `__find_emote_id`. -/
structure TeamInfo where
  name : String
  emote : Option String
  short : Option String
  score : ScoreVal
deriving DecidableEq, Repr

/-- Model of `__find_emote_id`: configured emote first, then the guessed
name, then the grey-question placeholder. -/
def findEmoteId (guild : Guild) (teamInfo : TeamInfo) : String :=
  let configured :=
    match teamInfo.emote with
    | none => none
    | some e => getEmoteId guild e
  match configured with
  | some emoteId => emoteId
  | none =>
    match getEmoteId guild (teamNameToEmoteName teamInfo.name) with
    | some emoteId => emoteId
    | none => ":grey_question:"

/-- One entry of a match's `opponents` array. -/
structure MatchOpponent where
  participantName : String
  emote : Option String
  shortName : Option String
  score : ScoreVal
  forfeit : Bool
deriving DecidableEq, Repr

/-- A raw match record: status plus the opponents array. -/
structure MatchData where
  status : String
  opponents : List MatchOpponent
deriving DecidableEq, Repr

/-- Model of `__apply_match_forfeit`: sets the score to `"FF"` for a
forfeiting team and `"W"` otherwise. -/
def applyMatchForfeit (team : MatchOpponent) : MatchOpponent :=
  if team.forfeit then { team with score := .str "FF" }
  else { team with score := .str "W" }

/-- The team dictionary that `__get_match_info` builds for one opponent. -/
def toTeamInfo (o : MatchOpponent) : TeamInfo :=
  { name := o.participantName, emote := o.emote, short := o.shortName, score := o.score }

/-- The result of `__get_match_info`. -/
structure MatchInfo where
  status : String
  homeTeam : TeamInfo
  awayTeam : TeamInfo
deriving DecidableEq, Repr

/-- Model of `__get_match_info`: `opponents[0]` and `opponents[1]` are the
home and away teams; when either forfeited, the forfeit pass rewrites both
scores.  `none` models the IndexError on fewer than two opponents. -/
def getMatchInfo (m : MatchData) : Option MatchInfo :=
  match m.opponents with
  | homeTeam :: awayTeam :: _ =>
    let anyForfeit := homeTeam.forfeit || awayTeam.forfeit
    let homeTeam1 := if anyForfeit then applyMatchForfeit homeTeam else homeTeam
    let awayTeam1 := if anyForfeit then applyMatchForfeit awayTeam else awayTeam
    some { status := m.status, homeTeam := toTeamInfo homeTeam1, awayTeam := toTeamInfo awayTeam1 }
  | _ => none

/-- Python `f"{score}"` on a score value. -/
def renderScore : ScoreVal → String
  | .int n => toString n
  | .str s => s
  | .null => "None"

/-- Model of `__get_match_string`. -/
def getMatchString (guild : Guild) (m : MatchInfo) : String :=
  let homeEmote := findEmoteId guild m.homeTeam
  let awayEmote := findEmoteId guild m.awayTeam
  let homeName := match m.homeTeam.short with | none => m.homeTeam.name | some s => s
  let awayName := match m.awayTeam.short with | none => m.awayTeam.name | some s => s
  let homeStr := homeName ++ " " ++ homeEmote
  let awayStr := awayEmote ++ " " ++ awayName
  if m.status = "pending" then homeStr ++ " vs " ++ awayStr
  else homeStr ++ " " ++ renderScore m.homeTeam.score ++ "-" ++
    renderScore m.awayTeam.score ++ " " ++ awayStr

/-! ### Colour parsing (`__str_to_colour`) -/

/-- Python `colour_code.strip('#')`: removes every leading and trailing
`'#'`. -/
def stripHash (s : String) : String :=
  String.mk (((s.data.dropWhile fun c => c = '#').reverse.dropWhile fun c => c = '#').reverse)

/-- Hexadecimal digit test. -/
def isHexChar (c : Char) : Bool :=
  c.isDigit || ('a' ≤ c && c ≤ 'f') || ('A' ≤ c && c ≤ 'F')

/-- Value of a hexadecimal digit character. -/
def hexDigitVal (c : Char) : Nat :=
  if c.isDigit then c.toNat - 48
  else if 'a' ≤ c && c ≤ 'f' then c.toNat - 87
  else c.toNat - 55

/-- Model of Python `int(s, 16)` on plain hex-digit strings, `none`
standing for the ValueError (Python additionally tolerates surrounding
whitespace, a sign and an `0x` prefix, none of which occur in a colour
slice of hex digits). -/
def intHexChars (l : List Char) : Option Nat :=
  if l.isEmpty then none
  else if l.all isHexChar then some (l.foldl (fun a c => 16 * a + hexDigitVal c) 0)
  else none

/-- Model of `__str_to_colour`: strip `'#'`, then read slices `[:2]`,
`[2:4]`, `[4:]` as hexadecimal r/g/b components
(`discord.Colour.from_rgb` performs no validation of its own). -/
def strToColour (s : String) : Option (Nat × Nat × Nat) :=
  let t := (stripHash s).data
  match intHexChars (t.take 2), intHexChars ((t.drop 2).take 2), intHexChars (t.drop 4) with
  | some r, some g, some b => some (r, g, b)
  | _, _, _ => none

/-! ### Ranking rendering (`embed_generator.py`) -/

/-- A raw ranking entry as delivered by the ranking endpoint. -/
structure RankTeam where
  rank : Option Int
  position : Int
  shortName : Option String
  name : String
  wins : Int
  losses : Int
  scoreDifference : Int
deriving DecidableEq, Repr

/-- The four display strings produced by `__get_rank_info`. -/
structure RankInfo where
  rank : String
  name : String
  winLoss : String
  diff : String
deriving DecidableEq, Repr

/-- Model of `__get_rank_info`: rank falls back to position, name prefers
the short name, and the differential is rendered with an explicit sign
(`f"{diff:+}"`). -/
def getRankInfo (team : RankTeam) : RankInfo :=
  let rank := match team.rank with | none => team.position | some r => r
  let name := match team.shortName with | none => team.name | some s => s
  { rank := "#" ++ toString rank
    name := name
    winLoss := toString team.wins ++ "-" ++ toString team.losses
    diff :=
      if 0 ≤ team.scoreDifference then "+" ++ toString team.scoreDifference
      else toString team.scoreDifference }

/-- Right-pads a string with spaces to the target width
(`entry + " " * (target_size - actual_size)`). -/
def padTo (target : Nat) (s : String) : String :=
  s ++ String.mk (List.replicate (target - s.length) ' ')

/-- Width of the widest value of one field, Python
`max(len(entry[key]) for entry in dict_list)` for a non-empty list. -/
def maxFieldLen (f : RankInfo → String) (rows : List RankInfo) : Nat :=
  (rows.map fun r => (f r).length).foldr max 0

/-- Model of `__pad_dictionary` applied to the four ranking keys; `none`
models the ValueError that Python `max` raises on an empty list. -/
def padDictionary (rows : List RankInfo) : Option (List RankInfo) :=
  if rows.isEmpty then none
  else
    let wRank := maxFieldLen (fun r => r.rank) rows
    let wName := maxFieldLen (fun r => r.name) rows
    let wWinLoss := maxFieldLen (fun r => r.winLoss) rows
    let wDiff := maxFieldLen (fun r => r.diff) rows
    some (rows.map fun r =>
      { rank := padTo wRank r.rank
        name := padTo wName r.name
        winLoss := padTo wWinLoss r.winLoss
        diff := padTo wDiff r.diff })

/-- Model of `__get_ranking_str` with the default separator. -/
def getRankingStr (team : RankInfo) : String :=
  String.intercalate " | " [team.rank, team.name, team.winLoss, team.diff]

/-- Model of `__generate_ranking_text`: extract, pad, join. -/
def generateRankingText (ranking : List RankTeam) : Option String :=
  let infos := ranking.map getRankInfo
  (padDictionary infos).map fun padded =>
    String.intercalate "\n" (padded.map getRankingStr)

/-! ### Concrete data used by witnesses and counterexamples -/

/-- First page of a two-page exchange: items 0-1 of 4. -/
def sampleResp1 : Response Nat := ⟨true, 200, [1, 2], some "items 0-1/4"⟩

/-- Second page of a two-page exchange: items 2-3 of 4. -/
def sampleResp2 : Response Nat := ⟨true, 200, [3, 4], some "items 2-3/4"⟩

/-- A successful response with no `Content-Range` header at all. -/
def respMissingHeader : Response Nat := ⟨true, 200, [7], none⟩

/-- A successful response whose `Content-Range` header does not parse. -/
def respBadHeader : Response Nat := ⟨true, 200, [9], some "no range here"⟩

/-- A credential set expiring 30 seconds after time 1000. -/
def sampleCreds : Credentials :=
  ⟨"clientid", "clientsecret", "apikey", "oldkey", "Bearer", "scopes", 1030⟩

/-- A token-endpoint response granting an hour-long token. -/
def sampleTok : TokenResponse := ⟨"newkey", "Bearer", "scopes", 3600⟩

/-- A match in which both opponents carry the forfeit flag. -/
def doubleForfeitMatch : MatchData :=
  ⟨"completed", [⟨"A", none, none, .int 2, true⟩, ⟨"B", none, none, .int 3, true⟩]⟩

/-- A match in which exactly the home opponent carries the forfeit flag. -/
def singleForfeitMatch : MatchData :=
  ⟨"completed", [⟨"A", none, none, .int 2, true⟩, ⟨"B", none, none, .int 3, false⟩]⟩

/-- A guild owning exactly the custom emote `RedDevils`. -/
def redDevilsGuild : Guild := ⟨[⟨"RedDevils", 3⟩]⟩

/-- A team whose name separates its words with a tab, not a space. -/
def tabTeam : TeamInfo := ⟨"red\tdevils", none, none, .null⟩

/-- A team named with a space and no configured emote. -/
def spaceTeam : TeamInfo := ⟨"red devils", none, none, .null⟩

/-- A concrete valid expiry timestamp. -/
def sampleExpiry : DateTime := ⟨10, 3, 2021, 12, 34, 56⟩

/-- A one-row ranking. -/
def sampleRankingRow : RankTeam := ⟨some 1, 1, none, "Team A", 3, 0, 5⟩

/-- A second ranking row with wider fields. -/
def sampleRankingRow2 : RankTeam := ⟨some 10, 2, none, "C", 2, 1, -1⟩

/-! ## Theorems -/

/-! ### Pagination (C1, C2) -/

theorem requestGetPagesAux_run {α : Type} (unit : String) (ipr : Nat)
    (resps : List (Int × Response α)) (s : Nat) (ranges : List (Nat × Nat)) (items : List α)
    (h : PagedRun unit ipr s resps ranges items) :
    ∀ (total : Nat) (cooldown : Int) (ranges0 : List (Nat × Nat)) (acc0 : List α),
      s < total →
      (requestGetPagesAux unit ipr resps cooldown s total ranges0 acc0).2 =
        .ok (ranges0 ++ ranges, acc0 ++ items) := by
  induction h with
  | stop s t r cr a b n hok hcr hparse hlast =>
    intro total cooldown ranges0 acc0 hlt
    simp only [requestGetPagesAux, if_pos hlt, hok, if_pos rfl, hcr, hparse]
    simp [requestGetPagesAux, hlast]
  | step s t r cr a b n rest ranges items hok hcr hparse hmore htail ih =>
    intro total cooldown ranges0 acc0 hlt
    simp only [requestGetPagesAux, if_pos hlt, hok, if_pos rfl, hcr, hparse]
    rw [ih n _ _ _ hmore]
    simp

theorem pagedRun_items {α : Type} {unit : String} {ipr : Nat}
    {s : Nat} {resps : List (Int × Response α)} {ranges : List (Nat × Nat)} {items : List α}
    (h : PagedRun unit ipr s resps ranges items) :
    items = (resps.map (fun p => p.2.items)).flatten := by
  induction h with
  | stop s t r cr a b n hok hcr hparse hlast => simp
  | step s t r cr a b n rest ranges items hok hcr hparse hmore htail ih => simp [ih]

/-- C1: whenever each successful response of a paginated fetch carries a
well-formed content-range header `unit a-b/n`, the client issues the next
request starting at `b + 1` exactly while `b + 1 < n`, stops when
`b = n - 1`, and returns the concatenation of all pages' items in arrival
order (the issued `Range` windows and the final item list are exactly
those prescribed by `PagedRun`). -/
theorem pagination_advances_and_concatenates {α : Type} (unit : String) (ipr : Nat)
    (cooldown : Int) (resps : List (Int × Response α))
    (ranges : List (Nat × Nat)) (items : List α)
    (h : PagedRun unit ipr 0 resps ranges items) :
    (requestGetPages unit ipr cooldown resps).2 = .ok (ranges, items) ∧
    items = (resps.map (fun p => p.2.items)).flatten := by
  refine ⟨?_, pagedRun_items h⟩
  have hrun := requestGetPagesAux_run unit ipr resps 0 ranges items h 1 cooldown [] []
    (by decide)
  simpa [requestGetPages] using hrun

/-- C1 witness: a concrete two-page run with windows of two items. -/
theorem pagination_advances_witness :
    (requestGetPages "items" 2 0 [((0 : Int), sampleResp1), ((700 : Int), sampleResp2)]).2 =
      .ok ([(0, 1), (2, 3)], [1, 2, 3, 4]) :=
  (pagination_advances_and_concatenates "items" 2 0 _ _ _
    (PagedRun.step 0 0 sampleResp1 "items 0-1/4" 0 1 4 _ _ _ rfl rfl (by decide) (by decide)
      (PagedRun.stop 2 700 sampleResp2 "items 2-3/4" 2 3 4 rfl rfl (by decide) rfl))).1

/-- C2 (amended): a successful response whose content-range header is
present but unparseable terminates the pagination loop gracefully,
returning all accumulated items including this response's items; a
successful response with no content-range header at all raises a KeyError
instead. -/
theorem pagination_header_termination {α : Type} (unit : String) (ipr : Nat)
    (cooldown t : Int) (r : Response α) (rest : List (Int × Response α))
    (s total : Nat) (ranges : List (Nat × Nat)) (acc : List α)
    (hlt : s < total) (hok : r.ok = true) :
    (∀ cr, r.contentRange = some cr → parseContentRange unit cr = none →
      (requestGetPagesAux unit ipr ((t, r) :: rest) cooldown s total ranges acc).2 =
        .ok (ranges ++ [(s, s + ipr - 1)], acc ++ r.items)) ∧
    (r.contentRange = none →
      (requestGetPagesAux unit ipr ((t, r) :: rest) cooldown s total ranges acc).2 =
        .error .keyError) := by
  constructor
  · intro cr hcr hparse
    simp [requestGetPagesAux, if_pos hlt, hok, hcr, hparse]
  · intro hcr
    simp [requestGetPagesAux, if_pos hlt, hok, hcr]

/-- C2 counterexample: a successful response with the content-range header
missing makes the fetch raise a KeyError; its items are not returned, so
the claim's "missing header terminates gracefully" fails on the code. -/
theorem pagination_missing_header_raises :
    (requestGetPages "items" 50 0 [((0 : Int), respMissingHeader)]).2 =
      .error PyError.keyError ∧
    ((requestGetPages "items" 50 0 [((0 : Int), respMissingHeader)]).2).isOk = false :=
  ⟨rfl, rfl⟩

/-- C2 witness: a present but unparseable header returns the accumulated
items gracefully. -/
theorem pagination_header_termination_witness :
    (requestGetPages "items" 50 0 [((0 : Int), respBadHeader)]).2 = .ok ([(0, 49)], [9]) :=
  (pagination_header_termination "items" 50 0 0 respBadHeader [] 0 1 [] []
    (by decide) rfl).1 "no range here" rfl (by decide)

/-! ### Rate limiting (C8) -/

theorem sends_lowerBound_chain {α : Type} (unit : String) (ipr : Nat) :
    ∀ (resps : List (Int × Response α)) (cooldown : Int) (s total : Nat)
      (ranges : List (Nat × Nat)) (acc : List α),
      (∀ x ∈ (requestGetPagesAux unit ipr resps cooldown s total ranges acc).1, cooldown ≤ x) ∧
      List.Chain' (fun a b => a + 333 ≤ b)
        (requestGetPagesAux unit ipr resps cooldown s total ranges acc).1 := by
  intro resps
  induction resps with
  | nil =>
    intro cooldown s total ranges acc
    constructor <;> simp only [requestGetPagesAux] <;> split <;> simp
  | cons p rest ih =>
    intro cooldown s total ranges acc
    obtain ⟨t, r⟩ := p
    obtain ⟨rok, rstatus, ritems, rcr⟩ := r
    by_cases hlt : s < total
    · cases rok with
      | false =>
        constructor
        · intro x hx
          simp [requestGetPagesAux, if_pos hlt, respectRateLimits] at hx
          subst hx
          exact le_max_right t cooldown
        · simp [requestGetPagesAux, if_pos hlt]
      | true =>
        cases rcr with
        | none =>
          constructor
          · intro x hx
            simp [requestGetPagesAux, if_pos hlt, respectRateLimits] at hx
            subst hx
            exact le_max_right t cooldown
          · simp [requestGetPagesAux, if_pos hlt]
        | some cr =>
          cases hparse : parseContentRange unit cr with
          | none =>
            constructor
            · intro x hx
              simp [requestGetPagesAux, if_pos hlt, hparse, respectRateLimits] at hx
              subst hx
              exact le_max_right t cooldown
            · simp [requestGetPagesAux, if_pos hlt, hparse]
          | some abn =>
            obtain ⟨a, b, n⟩ := abn
            have hrec := ih ((respectRateLimits cooldown t).2) (b + 1) n
              (ranges ++ [(s, s + ipr - 1)]) (acc ++ ritems)
            constructor
            · intro x hx
              simp only [requestGetPagesAux, if_pos hlt, hparse, if_true,
                eq_self_iff_true, List.mem_cons] at hx
              rcases hx with hx | hx
              · subst hx
                simp only [respectRateLimits]
                exact le_max_right t cooldown
              · have h1 := hrec.1 x hx
                simp only [respectRateLimits] at h1 ⊢
                have h2 : cooldown ≤ max t cooldown := le_max_right t cooldown
                omega
            · simp only [requestGetPagesAux, if_pos hlt, hparse, if_true, eq_self_iff_true]
              rw [List.chain'_cons']
              refine ⟨?_, hrec.2⟩
              intro y hy
              have hymem := List.mem_of_mem_head? hy
              have h1 := hrec.1 y hymem
              simp only [respectRateLimits] at h1 ⊢
              omega
    · simp [requestGetPagesAux, if_neg hlt]

/-- C8: every request of a paginated fetch passes through the rate-limit
gate, so consecutive send times are at least 333 ms apart; and the gate
itself never sends before the shared cooldown timestamp, then advances the
cooldown to the send time plus 333 ms (this also covers the single
requests of `__request_get` / `__request_post`, including the
token-refresh POST, which call the same gate once before sending). -/
theorem rate_limit_spacing {α : Type} (unit : String) (ipr : Nat) (cooldown : Int)
    (resps : List (Int × Response α)) :
    List.Chain' (fun a b => a + 333 ≤ b) (requestGetPages unit ipr cooldown resps).1 ∧
    (∀ c t : Int, c ≤ (respectRateLimits c t).1 ∧ t ≤ (respectRateLimits c t).1 ∧
      (respectRateLimits c t).2 = (respectRateLimits c t).1 + 333) :=
  ⟨(sends_lowerBound_chain unit ipr resps cooldown 0 1 [] []).2,
   fun c t => ⟨le_max_right t c, le_max_left t c, rfl⟩⟩

/-! ### Token refresh (C3) -/

/-- C3: before a request that attaches the bearer token, the client
refreshes exactly when the stored expiry lies within 60 seconds of the
current time; the refresh performs one token POST, replaces the stored
token, sets the expiry to `now + expires_in - 10` (hence at least 10
seconds before the platform-reported expiry `now + expires_in`), and
persists the updated credentials before the original request is sent;
otherwise nothing but the original request happens. -/
theorem token_refresh_policy (now : Int) (c : Credentials) (tok : TokenResponse) :
    (c.authExpiry < now + 60 →
      (requestAuthorized now c tok).2 =
        [ApiEvent.postTokenRequest,
         ApiEvent.persistCredentials (requestAuthorized now c tok).1,
         ApiEvent.sendRequest] ∧
      (requestAuthorized now c tok).1.authKey = tok.accessToken ∧
      (requestAuthorized now c tok).1.authExpiry = now + tok.expiresIn - 10 ∧
      (requestAuthorized now c tok).1.authExpiry ≤ (now + tok.expiresIn) - 10) ∧
    (now + 60 ≤ c.authExpiry →
      (requestAuthorized now c tok).2 = [ApiEvent.sendRequest] ∧
      (requestAuthorized now c tok).1 = c) := by
  constructor
  · intro h
    have hb : hasApiTokenExpired now c = true := by
      simp only [hasApiTokenExpired, decide_eq_true_eq]
      omega
    simp [requestAuthorized, checkAuthToken, hb, updateApiCredentials]
  · intro h
    have hb : hasApiTokenExpired now c = false := by
      simp only [hasApiTokenExpired, decide_eq_false_iff_not]
      omega
    simp [requestAuthorized, checkAuthToken, hb]

/-- C3 witness: a credential set expiring 30 seconds from now triggers one
refresh with the documented ordering and expiry. -/
theorem token_refresh_policy_witness :
    (requestAuthorized 1000 sampleCreds sampleTok).2 =
      [ApiEvent.postTokenRequest,
       ApiEvent.persistCredentials (requestAuthorized 1000 sampleCreds sampleTok).1,
       ApiEvent.sendRequest] ∧
    (requestAuthorized 1000 sampleCreds sampleTok).1.authKey = sampleTok.accessToken ∧
    (requestAuthorized 1000 sampleCreds sampleTok).1.authExpiry =
      1000 + sampleTok.expiresIn - 10 ∧
    (requestAuthorized 1000 sampleCreds sampleTok).1.authExpiry ≤
      (1000 + sampleTok.expiresIn) - 10 :=
  (token_refresh_policy 1000 sampleCreds sampleTok).1 (by decide)

/-! ### Expiry serialisation round-trip (C7) -/

theorem digitChar_mod_isDigit (n : Nat) : (Nat.digitChar (n % 10)).isDigit = true := by
  have h : n % 10 < 10 := Nat.mod_lt _ (by norm_num)
  interval_cases h : n % 10 <;> decide

theorem digitVal_digitChar_mod (n : Nat) : digitVal (Nat.digitChar (n % 10)) = n % 10 := by
  have h : n % 10 < 10 := Nat.mod_lt _ (by norm_num)
  interval_cases h : n % 10 <;> decide

theorem authExpiry_roundtrip (dt : DateTime) (hv : dt.Valid) :
    parseAuthExpiry (formatAuthExpiry dt) = some dt := by
  obtain ⟨d, m, y, h, mi, s⟩ := dt
  replace hv : 1 ≤ d ∧ d ≤ 31 ∧ 1 ≤ m ∧ m ≤ 12 ∧ 1000 ≤ y ∧ y ≤ 9999 ∧
      h ≤ 23 ∧ mi ≤ 59 ∧ s ≤ 59 := hv
  obtain ⟨h1, h2, h3, h4, h5, h6, h7, h8, h9⟩ := hv
  simp only [parseAuthExpiry, formatAuthExpiry, formatAuthExpiryChars, pad2Chars, pad4Chars,
    List.cons_append, List.nil_append]
  simp only [parseAuthExpiryChars, digitChar_mod_isDigit, digitVal_digitChar_mod,
    Bool.and_self, if_true]
  have hd : 10 * (d / 10 % 10) + d % 10 = d := by omega
  have hm : 10 * (m / 10 % 10) + m % 10 = m := by omega
  have hy : 1000 * (y / 1000 % 10) + 100 * (y / 100 % 10) + 10 * (y / 10 % 10) + y % 10 = y := by
    omega
  have hh : 10 * (h / 10 % 10) + h % 10 = h := by omega
  have hmi : 10 * (mi / 10 % 10) + mi % 10 = mi := by omega
  have hs : 10 * (s / 10 % 10) + s % 10 = s := by omega
  rw [hd, hm, hy, hh, hmi, hs]
  rw [if_pos]
  omega

/-- C7: serialising a valid expiry timestamp with the
`"%d.%m.%Y, %H:%M:%S"` format used when persisting credentials, then
reloading it the way `__load_api_credentials` does, returns exactly the
same timestamp down to the second; and a reloaded expiry is classified as
expired precisely when it lies less than 60 seconds after the current
time. -/
theorem expiry_roundtrip_and_classification :
    (∀ dt : DateTime, dt.Valid → parseAuthExpiry (formatAuthExpiry dt) = some dt) ∧
    (∀ (now : Int) (c : Credentials),
      hasApiTokenExpired now c = true ↔ c.authExpiry < now + 60) := by
  constructor
  · exact authExpiry_roundtrip
  · intro now c
    simp only [hasApiTokenExpired, decide_eq_true_eq, gt_iff_lt]

/-- C7 witness: the round trip evaluated at a concrete timestamp. -/
theorem expiry_roundtrip_witness :
    sampleExpiry.Valid ∧
    parseAuthExpiry (formatAuthExpiry sampleExpiry) = some sampleExpiry :=
  ⟨by decide, expiry_roundtrip_and_classification.1 sampleExpiry (by decide)⟩

/-! ### Forfeit rendering (C4) -/

/-- C4 counterexample: in a double forfeit both opponents carry the
forfeit flag, and both rendered scores are `FF`; the forfeiting home
opponent's opposite side does not show `W`, contradicting the claim as
stated. -/
theorem forfeit_double_counterexample :
    doubleForfeitMatch.opponents.map (fun o => o.forfeit) = [true, true] ∧
    getMatchInfo doubleForfeitMatch =
      some ⟨"completed", ⟨"A", none, none, .str "FF"⟩, ⟨"B", none, none, .str "FF"⟩⟩ ∧
    ((getMatchInfo doubleForfeitMatch).map fun info => info.awayTeam.score) ≠
      some (ScoreVal.str "W") := by decide

/-- C4 (amended): in a match where at least one opponent carries the
forfeit flag, every opponent with the flag set shows `FF` and every
opponent with the flag unset shows `W` (so in a double forfeit both sides
show `FF` and neither shows `W`); neither displayed score is ever a
number. -/
theorem forfeit_scores (m : MatchData) (h a : MatchOpponent) (rest : List MatchOpponent)
    (hops : m.opponents = h :: a :: rest) (hforfeit : h.forfeit = true ∨ a.forfeit = true) :
    ∃ info, getMatchInfo m = some info ∧
      info.homeTeam.score = .str (if h.forfeit then "FF" else "W") ∧
      info.awayTeam.score = .str (if a.forfeit then "FF" else "W") ∧
      (∀ n : Int, info.homeTeam.score ≠ ScoreVal.int n) ∧
      (∀ n : Int, info.awayTeam.score ≠ ScoreVal.int n) := by
  have hf : (h.forfeit || a.forfeit) = true := by
    rcases hforfeit with hf | hf <;> simp [hf]
  refine ⟨⟨m.status, toTeamInfo (applyMatchForfeit h), toTeamInfo (applyMatchForfeit a)⟩,
    ?_, ?_, ?_, ?_, ?_⟩
  · simp [getMatchInfo, hops, hf]
  all_goals cases hh : h.forfeit <;> cases ha : a.forfeit <;>
    simp_all [applyMatchForfeit, toTeamInfo]

/-- C4 witness: a single forfeit renders `FF` against `W`. -/
theorem forfeit_scores_witness :
    ∃ info, getMatchInfo singleForfeitMatch = some info ∧
      info.homeTeam.score = .str "FF" ∧
      info.awayTeam.score = .str "W" ∧
      (∀ n : Int, info.homeTeam.score ≠ ScoreVal.int n) ∧
      (∀ n : Int, info.awayTeam.score ≠ ScoreVal.int n) :=
  forfeit_scores singleForfeitMatch ⟨"A", none, none, .int 2, true⟩
    ⟨"B", none, none, .int 3, false⟩ [] rfl (Or.inl rfl)

/-! ### Colour parsing (C5) -/

/-- C5 counterexample: `"00AAF"` is five characters long, so it is not a
6-hex-digit string, yet parsing returns a colour instead of raising. -/
theorem colour_wrong_length_no_error :
    "00AAF".length = 5 ∧ strToColour "00AAF" = some (0, 170, 15) ∧
    strToColour "00AAF" ≠ none := by decide

/-- C5 (amended): `"#00AAFF"` and `"00AAFF"` both parse to
`(0, 170, 255)` and a non-hex input such as `"ZZZZZZ"` raises; but the
wrong-length check claimed by the spec does not exist: any input whose
three slices after hash-stripping are non-empty hex parses (e.g.
`"00AAF"` yields `(0, 170, 15)`), and only inputs with fewer than five
characters after hash-stripping always raise. -/
theorem colour_parsing (s : String) (hshort : (stripHash s).length < 5) :
    strToColour "#00AAFF" = some (0, 170, 255) ∧
    strToColour "00AAFF" = some (0, 170, 255) ∧
    strToColour "ZZZZZZ" = none ∧
    strToColour "00AAF" = some (0, 170, 15) ∧
    strToColour s = none := by
  refine ⟨by decide, by decide, by decide, by decide, ?_⟩
  have hdrop : (stripHash s).data.drop 4 = [] := by
    apply List.drop_eq_nil_of_le
    have hlen : (stripHash s).length = (stripHash s).data.length := rfl
    omega
  rcases h1 : intHexChars ((stripHash s).data.take 2) with _ | v1 <;>
    rcases h2 : intHexChars (((stripHash s).data.drop 2).take 2) with _ | v2 <;>
      simp [strToColour, hdrop, h1, h2, intHexChars]

/-- C5 witness: a stripped input shorter than five characters raises. -/
theorem colour_parsing_witness : strToColour "#FF" = none :=
  (colour_parsing "#FF" (by decide)).2.2.2.2

/-! ### Ranking table padding (C6, C10) -/

theorem le_maxFieldLen (f : RankInfo → String) (rows : List RankInfo)
    (r : RankInfo) (hr : r ∈ rows) : (f r).length ≤ maxFieldLen f rows := by
  induction rows with
  | nil => cases hr
  | cons a t ih =>
    rcases List.mem_cons.mp hr with rfl | hmem
    · exact le_max_left _ _
    · exact le_trans (ih hmem) (le_max_right _ _)

theorem padTo_length (w : Nat) (s : String) (h : s.length ≤ w) :
    (padTo w s).length = w := by
  have hmk : (String.mk (List.replicate (w - s.length) ' ')).length = w - s.length :=
    List.length_replicate _ _
  have happ : (padTo w s).length = s.length + (w - s.length) := by
    rw [padTo, String.length_append, hmk]
  omega

/-- C6: for a non-empty ranking, every one of the four fields of every
padded row has exactly the maximum natural width of that field over all
rows, rows are joined with newlines, and fields are joined with
`" | "`. -/
theorem ranking_column_padding (ranking : List RankTeam) (hne : ranking ≠ []) :
    (padDictionary (ranking.map getRankInfo)).isSome = true ∧
    (∀ padded, padDictionary (ranking.map getRankInfo) = some padded →
      (∀ r ∈ padded,
        r.rank.length = maxFieldLen (fun x => x.rank) (ranking.map getRankInfo) ∧
        r.name.length = maxFieldLen (fun x => x.name) (ranking.map getRankInfo) ∧
        r.winLoss.length = maxFieldLen (fun x => x.winLoss) (ranking.map getRankInfo) ∧
        r.diff.length = maxFieldLen (fun x => x.diff) (ranking.map getRankInfo)) ∧
      generateRankingText ranking =
        some (String.intercalate "\n" (padded.map getRankingStr))) ∧
    (∀ r, getRankingStr r = String.intercalate " | " [r.rank, r.name, r.winLoss, r.diff]) := by
  cases ranking with
  | nil => exact absurd rfl hne
  | cons hd tl =>
    set infos := (hd :: tl).map getRankInfo with hinfos
    have hpd : padDictionary infos = some (infos.map fun r =>
        { rank := padTo (maxFieldLen (fun x => x.rank) infos) r.rank
          name := padTo (maxFieldLen (fun x => x.name) infos) r.name
          winLoss := padTo (maxFieldLen (fun x => x.winLoss) infos) r.winLoss
          diff := padTo (maxFieldLen (fun x => x.diff) infos) r.diff }) := rfl
    refine ⟨by rw [hpd]; rfl, ?_, fun r => rfl⟩
    intro padded hp
    rw [hpd] at hp
    replace hp := Option.some.inj hp
    subst hp
    constructor
    · intro r hr
      simp only [List.mem_map] at hr
      obtain ⟨x, hx, rfl⟩ := hr
      exact ⟨padTo_length _ _ (le_maxFieldLen _ infos x hx),
             padTo_length _ _ (le_maxFieldLen _ infos x hx),
             padTo_length _ _ (le_maxFieldLen _ infos x hx),
             padTo_length _ _ (le_maxFieldLen _ infos x hx)⟩
    · simp only [generateRankingText, hpd, Option.map_some]
      rfl

/-- C6 witness: the padding property evaluated on a concrete two-row
ranking. -/
theorem ranking_column_padding_witness :
    (padDictionary ([sampleRankingRow, sampleRankingRow2].map getRankInfo)).isSome = true ∧
    (∀ padded,
      padDictionary ([sampleRankingRow, sampleRankingRow2].map getRankInfo) = some padded →
      (∀ r ∈ padded,
        r.rank.length = maxFieldLen (fun x => x.rank)
          ([sampleRankingRow, sampleRankingRow2].map getRankInfo) ∧
        r.name.length = maxFieldLen (fun x => x.name)
          ([sampleRankingRow, sampleRankingRow2].map getRankInfo) ∧
        r.winLoss.length = maxFieldLen (fun x => x.winLoss)
          ([sampleRankingRow, sampleRankingRow2].map getRankInfo) ∧
        r.diff.length = maxFieldLen (fun x => x.diff)
          ([sampleRankingRow, sampleRankingRow2].map getRankInfo)) ∧
      generateRankingText [sampleRankingRow, sampleRankingRow2] =
        some (String.intercalate "\n" (padded.map getRankingStr))) ∧
    (∀ r, getRankingStr r = String.intercalate " | " [r.rank, r.name, r.winLoss, r.diff]) :=
  ranking_column_padding [sampleRankingRow, sampleRankingRow2] (by decide)

/-- C10: rendering the empty ranking raises (the empty maximum), and the
rendering is total on every non-empty ranking. -/
theorem empty_ranking_raises :
    generateRankingText [] = none ∧
    ∀ (ranking : List RankTeam), ranking ≠ [] →
      (generateRankingText ranking).isSome = true := by
  refine ⟨rfl, ?_⟩
  intro ranking hne
  cases ranking with
  | nil => exact absurd rfl hne
  | cons hd tl => rfl

/-- C10 witness: a one-row ranking renders successfully. -/
theorem empty_ranking_raises_witness :
    (generateRankingText [sampleRankingRow]).isSome = true :=
  empty_ranking_raises.2 [sampleRankingRow] (by decide)

/-! ### Emote resolution (C9) -/

/-- C9 (amended): a configured emote that resolves wins; otherwise the
name guessed from the team name (with only the space character treated as
a separator: spaces are removed and the first letter of each
space-delimited word is capitalised, e.g. `"red devils"` to
`"RedDevils"`) is looked up; otherwise the placeholder glyph is used.
Lookups depend only on the lower-cased name. -/
theorem emote_resolution_chain (guild : Guild) (team : TeamInfo) :
    (∀ e m, team.emote = some e → getEmoteId guild e = some m →
      findEmoteId guild team = m) ∧
    ((team.emote = none ∨ ∃ e, team.emote = some e ∧ getEmoteId guild e = none) →
      (∀ m, getEmoteId guild (teamNameToEmoteName team.name) = some m →
        findEmoteId guild team = m) ∧
      (getEmoteId guild (teamNameToEmoteName team.name) = none →
        findEmoteId guild team = ":grey_question:")) ∧
    (∀ n1 n2 : String, lowerString n1 = lowerString n2 →
      getEmoteId guild n1 = getEmoteId guild n2) ∧
    teamNameToEmoteName "red devils" = "RedDevils" := by
  refine ⟨?_, ?_, ?_, by decide⟩
  · intro e m he hm
    simp [findEmoteId, he, hm]
  · intro hcfg
    constructor
    · intro m hm
      rcases hcfg with hnone | ⟨e, he, hfail⟩
      · simp [findEmoteId, hnone, hm]
      · simp [findEmoteId, he, hfail, hm]
    · intro hm
      rcases hcfg with hnone | ⟨e, he, hfail⟩
      · simp [findEmoteId, hnone, hm]
      · simp [findEmoteId, he, hfail, hm]
  · intro n1 n2 hlow
    rw [getEmoteId, getEmoteId, hlow]

/-- C9 counterexample: a tab separates the words of `"red` (tab)
`devils"`; the code's guess keeps the tab and misses the guild's
`RedDevils` emote, falling back to the placeholder, while the claim's
whitespace-based guess `"RedDevils"` would have resolved. -/
theorem emote_whitespace_counterexample :
    teamNameToEmoteName "red\tdevils" ≠ "RedDevils" ∧
    getEmoteId redDevilsGuild "RedDevils" = some "<:RedDevils:3>" ∧
    findEmoteId redDevilsGuild tabTeam = ":grey_question:" := by decide

/-- C9 witness: for `"red devils"` with no configured emote the guessed
name `RedDevils` resolves against the guild. -/
theorem emote_resolution_witness :
    findEmoteId redDevilsGuild spaceTeam = "<:RedDevils:3>" :=
  ((emote_resolution_chain redDevilsGuild spaceTeam).2.1 (Or.inl rfl)).1
    "<:RedDevils:3>" (by decide)

end ToornamentStandings
